import Mathlib

/-!
Verification of the TF-ELECTRA composition layer
(`src/transformers/modeling_tf_electra.py`) against its design
specification.  Tensors are shallowly embedded as nested lists of
rationals; token-id tensors as nested lists of naturals.  Framework
primitives that the repository merely calls (the BERT encoder stack, the
activation table entries, the reciprocal square root used inside layer
normalization) are opaque parameters of the model; everything the file
defines beyond that follows the Python source line by line.
-/

abbrev Vec := List ℚ
abbrev Mask2 := List (List ℚ)
abbrev Ids2 := List (List Nat)
abbrev Tensor3 := List (List (List ℚ))
abbrev Tensor4 := List (List (List (List ℚ)))

/-- Shape predicate for a rank-2 tensor (rectangular nested list). -/
def HasShape2 {α : Type} (t : List (List α)) (b s : Nat) : Prop :=
  t.length = b ∧ ∀ r ∈ t, r.length = s

/-- Shape predicate for a rank-3 tensor. -/
def HasShape3 (t : Tensor3) (b s d : Nat) : Prop :=
  t.length = b ∧ ∀ m ∈ t, m.length = s ∧ ∀ v ∈ m, v.length = d

/-- Shape predicate for a rank-4 tensor. -/
def HasShape4 (t : Tensor4) (a b c d : Nat) : Prop :=
  t.length = a ∧ ∀ x ∈ t, x.length = b ∧ ∀ y ∈ x, y.length = c ∧ ∀ z ∈ y, z.length = d

instance {α : Type} [DecidableEq α] (t : List (List α)) (b s : Nat) :
    Decidable (HasShape2 t b s) := by unfold HasShape2; infer_instance

instance (t : Tensor3) (b s d : Nat) : Decidable (HasShape3 t b s d) := by
  unfold HasShape3; infer_instance

instance (t : Tensor4) (a b c d : Nat) : Decidable (HasShape4 t a b c d) := by
  unfold HasShape4; infer_instance

/-- Entry of a rank-2 tensor, with default 0 out of range. -/
def entry2 (t : Mask2) (i j : Nat) : ℚ := (t.getD i []).getD j 0

/-- Entry of a rank-4 tensor, with default 0 out of range. -/
def entry4 (t : Tensor4) (i j k l : Nat) : ℚ :=
  (((t.getD i []).getD j []).getD k []).getD l 0

/-- `shape[-1]` of a rank-3 tensor: length of its first innermost vector
(the static feature width for rectangular tensors). -/
def lastDim3 (t : Tensor3) : Nat := ((t.getD 0 []).getD 0 []).length

/-- A binary (0/1-valued) mask, as the attention-mask input is documented. -/
def IsBinaryMask (m : Mask2) : Prop := ∀ r ∈ m, ∀ x ∈ r, x = 0 ∨ x = 1

instance (m : Mask2) : Decidable (IsBinaryMask m) := by
  unfold IsBinaryMask; infer_instance

/-- `tf.fill(input_shape, 1)` for a 2-D shape. -/
def onesMask (b s : Nat) : Mask2 := List.replicate b (List.replicate s (1 : ℚ))

/-- `tf.fill(input_shape, 0)` for a 2-D integer shape. -/
def zerosIds (b s : Nat) : Ids2 := List.replicate b (List.replicate s (0 : Nat))

/-- A `tf.keras.layers.Dense(units)` layer: affine map applied to the last
axis.  `weight i j` is the coefficient from input coordinate `i` to output
unit `j`. -/
structure DenseLayer where
  units : Nat
  weight : Nat → Nat → ℚ
  bias : Nat → ℚ

/-- Apply a dense layer to one feature vector. -/
def DenseLayer.apply (d : DenseLayer) (v : Vec) : Vec :=
  (List.range d.units).map (fun j =>
    ((List.range v.length).map (fun i => v.getD i 0 * d.weight i j)).sum + d.bias j)

/-- Apply a dense layer to the last axis of a rank-3 tensor. -/
def DenseLayer.apply3 (d : DenseLayer) (t : Tensor3) : Tensor3 :=
  t.map (fun m => m.map d.apply)

/-- Mean of a list of rationals. -/
def listMean (v : Vec) : ℚ := v.sum / (v.length : ℚ)

/-- A `tf.keras.layers.LayerNormalization` layer over the last axis.
`rsqrt` is the framework's opaque reciprocal square root. -/
structure LayerNorm where
  eps : ℚ
  gamma : Nat → ℚ
  beta : Nat → ℚ
  rsqrt : ℚ → ℚ

/-- Apply layer normalization to one feature vector. -/
def LayerNorm.apply (ln : LayerNorm) (v : Vec) : Vec :=
  (List.range v.length).map (fun i =>
    ln.gamma i * ((v.getD i 0 - listMean v) *
      ln.rsqrt (listMean (v.map (fun x => (x - listMean v) * (x - listMean v))) + ln.eps)) +
    ln.beta i)

/-- Errors raised synchronously by the forward pass. -/
inductive ElectraError where
  /-- `inputs[0]` on an empty positional sequence. -/
  | indexError
  /-- `assert len(inputs) <= 6, "Too many inputs."` -/
  | tooManyInputs
  /-- "You cannot specify both input_ids and inputs_embeds at the same time" -/
  | bothSpecified
  /-- "You have to specify either input_ids or inputs_embeds" -/
  | neitherSpecified
  /-- `raise NotImplementedError` -/
  | notImplemented
deriving DecidableEq

/-- Configuration record (`ElectraConfig`), read-only after construction. -/
structure ElectraConfig where
  vocab_size : Nat
  embedding_size : Nat
  hidden_size : Nat
  num_hidden_layers : Nat
  num_labels : Nat
  hidden_act : String
  max_position_embeddings : Nat
  type_vocab_size : Nat
  layer_norm_eps : ℚ
  hidden_dropout_prob : ℚ

/-- `TFElectraPreTrainedModel.get_extended_attention_mask`: broadcast the
2-D mask to `[batch, 1, 1, seq]` and map each entry `x` to
`(1 - x) * -10000`.  A `None` mask defaults to all ones over
`input_shape`. -/
def get_extended_attention_mask (attention_mask : Option Mask2)
    (input_shape : Nat × Nat) : Tensor4 :=
  let mask := match attention_mask with
    | none => onesMask input_shape.1 input_shape.2
    | some m => m
  mask.map (fun row => [[row.map (fun x => (1 - x) * (-10000))]])

/-- `TFElectraPreTrainedModel.get_head_mask`: a supplied head mask raises
`NotImplementedError`; an absent one expands to `[None] * num_hidden_layers`. -/
def get_head_mask {H : Type} (config : ElectraConfig) (head_mask : Option H) :
    Except ElectraError (List (Option H)) :=
  match head_mask with
  | some _ => .error .notImplemented
  | none => .ok (List.replicate config.num_hidden_layers none)

/-! ### Call-time input normalization (`TFElectraModel.call`, lines 152-188)

The Python `call` is dynamically typed: `inputs` may be a positional
tuple/list, a mapping, or a bare token-id tensor, and the keyword
arguments supply fallbacks.  The normalization is polymorphic in the
value type `V`; entries may themselves be `None` (`Option V`). -/

/-- The three accepted call-time input forms. -/
inductive ModelInput (V : Type) where
  | positionalSeq : List (Option V) → ModelInput V
  | mapping : List (String × Option V) → ModelInput V
  | bare : Option V → ModelInput V

/-- The keyword arguments of `call` besides `inputs` (all default `None`). -/
structure CallKwargs (V : Type) where
  attention_mask : Option V := none
  token_type_ids : Option V := none
  position_ids : Option V := none
  head_mask : Option V := none
  inputs_embeds : Option V := none

/-- The six canonical fields after normalization. -/
structure CanonFields (V : Type) where
  input_ids : Option V
  attention_mask : Option V
  token_type_ids : Option V
  position_ids : Option V
  head_mask : Option V
  inputs_embeds : Option V

/-- `inputs[i] if len(inputs) > i else fallback`. -/
def posGet {V : Type} (xs : List (Option V)) (i : Nat) (fallback : Option V) :
    Option V :=
  if i < xs.length then xs.getD i none else fallback

/-- `inputs.get(key, fallback)` on a mapping: the stored value (which may
itself be `None`) when the key is present, the fallback otherwise. -/
def dictGet {V : Type} (m : List (String × Option V)) (key : String)
    (fallback : Option V) : Option V :=
  match m.lookup key with
  | some v => v
  | none => fallback

/-- The six keys `call` reads from a mapping input. -/
def canonicalKeys : List String :=
  ["input_ids", "attention_mask", "token_type_ids", "position_ids",
   "head_mask", "inputs_embeds"]

/-- Lines 162-179: dispatch on the form of `inputs` and build the six
canonical fields.  On a positional sequence, `inputs[0]` is read before
the length assertion, so an empty sequence is an index error and a
sequence of more than six entries still reaches the "Too many inputs."
assertion; a mapping reads only the six canonical keys. -/
def normalizeInputs {V : Type} (inputs : ModelInput V) (kw : CallKwargs V) :
    Except ElectraError (CanonFields V) :=
  match inputs with
  | .positionalSeq xs =>
      match xs with
      | [] => .error .indexError
      | x0 :: _ =>
          if xs.length ≤ 6 then
            .ok ⟨x0, posGet xs 1 kw.attention_mask, posGet xs 2 kw.token_type_ids,
                 posGet xs 3 kw.position_ids, posGet xs 4 kw.head_mask,
                 posGet xs 5 kw.inputs_embeds⟩
          else .error .tooManyInputs
  | .mapping m =>
      if m.length ≤ 6 then
        .ok ⟨dictGet m "input_ids" none, dictGet m "attention_mask" kw.attention_mask,
             dictGet m "token_type_ids" kw.token_type_ids,
             dictGet m "position_ids" kw.position_ids,
             dictGet m "head_mask" kw.head_mask,
             dictGet m "inputs_embeds" kw.inputs_embeds⟩
      else .error .tooManyInputs
  | .bare x =>
      .ok ⟨x, kw.attention_mask, kw.token_type_ids, kw.position_ids,
           kw.head_mask, kw.inputs_embeds⟩

/-- Lines 181-188: exactly one of `input_ids` / `inputs_embeds` must be
present. -/
def checkSpecified {V : Type} (f : CanonFields V) :
    Except ElectraError (CanonFields V) :=
  match f.input_ids, f.inputs_embeds with
  | some _, some _ => .error .bothSpecified
  | none, none => .error .neitherSpecified
  | _, _ => .ok f

/-- `TFElectraModel.call` up to the normalization and presence checks,
continued by the rest of the forward pass (`process`), which by
construction reads only the six canonical fields. -/
def TFElectraModelCallGeneric {V R : Type}
    (process : CanonFields V → Except ElectraError R)
    (inputs : ModelInput V) (kw : CallKwargs V) : Except ElectraError R :=
  match normalizeInputs inputs kw with
  | .error e => .error e
  | .ok f =>
      match checkSpecified f with
      | .error e => .error e
      | .ok f => process f

/-! ### Embeddings, base model, and heads -/

/-- `TFElectraEmbeddings` (word/position/token-type tables of width
`embedding_size`, plus the layer norm inherited from `TFBertEmbeddings`). -/
structure TFElectraEmbeddings where
  vocab_size : Nat
  embedding_size : Nat
  word_embeddings : Nat → Nat → ℚ
  position_embeddings : Nat → Nat → ℚ
  token_type_embeddings : Nat → Nat → ℚ
  layerNorm : LayerNorm

/-- `TFElectraEmbeddings.__init__`: all three tables have width
`config.embedding_size`. -/
def mkElectraEmbeddings (config : ElectraConfig) (w p s : Nat → Nat → ℚ)
    (ln : LayerNorm) : TFElectraEmbeddings :=
  ⟨config.vocab_size, config.embedding_size, w, p, s, ln⟩

/-- Modelled from the spec: the embedding forward pass lives in the sibling
module `modeling_tf_bert` (`TFBertEmbeddings._embedding`), which is not
under `src/`.  Per the spec (section 4.1):
`output[b,t] = wordEmb[ids[b,t]] + posEmb[position_ids[b,t]] + segEmb[segment_ids[b,t]]`,
followed by normalization (dropout at inference is the identity);
omitted position ids default to `0..seq-1`, omitted segment ids to 0.
With precomputed vectors, the word-embedding lookup is replaced by the
supplied vector. -/
def TFElectraEmbeddings.forward (e : TFElectraEmbeddings)
    (input_ids : Option Ids2) (position_ids token_type_ids : Option Ids2)
    (inputs_embeds : Option Tensor3) : Tensor3 :=
  let pid := fun (b t : Nat) => match position_ids with
    | some p => (p.getD b []).getD t 0
    | none => t
  let sid := fun (b t : Nat) => match token_type_ids with
    | some s => (s.getD b []).getD t 0
    | none => 0
  match input_ids with
  | some ids =>
      (List.range ids.length).map (fun b =>
        (List.range (ids.getD b []).length).map (fun t =>
          e.layerNorm.apply ((List.range e.embedding_size).map (fun d =>
            e.word_embeddings ((ids.getD b []).getD t 0) d +
            e.position_embeddings (pid b t) d +
            e.token_type_embeddings (sid b t) d))))
  | none =>
      match inputs_embeds with
      | some ve =>
          (List.range ve.length).map (fun b =>
            (List.range (ve.getD b []).length).map (fun t =>
              let v := (ve.getD b []).getD t []
              e.layerNorm.apply ((List.range v.length).map (fun d =>
                v.getD d 0 +
                e.position_embeddings (pid b t) d +
                e.token_type_embeddings (sid b t) d))))
      | none => []

/-- `TFElectraModel`: embeddings, re-projection dense layer, opaque
encoder (external collaborator from `modeling_tf_bert`).  The encoder
takes hidden states, the extended attention mask and the per-layer head
mask, and returns its full output tuple: the sequence output and the
optional auxiliary outputs (of opaque type `A`). -/
structure TFElectraModel (H A : Type) where
  config : ElectraConfig
  embeddings : TFElectraEmbeddings
  embeddings_project : DenseLayer
  encoder : Tensor3 → Tensor4 → List (Option H) → Tensor3 × List A

/-- `TFElectraModel.__init__`: `embeddings_project = Dense(config.hidden_size)`. -/
def mkElectraModel {H A : Type} (config : ElectraConfig)
    (w p s : Nat → Nat → ℚ) (ln : LayerNorm)
    (projW : Nat → Nat → ℚ) (projB : Nat → ℚ)
    (encoder : Tensor3 → Tensor4 → List (Option H) → Tensor3 × List A) :
    TFElectraModel H A :=
  ⟨config, mkElectraEmbeddings config w p s ln, ⟨config.hidden_size, projW, projB⟩, encoder⟩

/-- Lines 200-201: re-project exactly when the embedding output's feature
width (`hidden_states.shape[-1]`) differs from `config.hidden_size`. -/
def projectedHidden {H A : Type} (model : TFElectraModel H A)
    (hidden_states : Tensor3) : Tensor3 :=
  if lastDim3 hidden_states ≠ model.config.hidden_size then
    model.embeddings_project.apply3 hidden_states
  else hidden_states

/-- Lines 181-205 of `TFElectraModel.call`, after normalization to the six
canonical (typed) fields: presence checks, shape derivation, mask and
token-type defaults, extended attention mask, head-mask expansion,
embeddings, optional re-projection, encoder. -/
def TFElectraModel.callFields {H A : Type} (model : TFElectraModel H A)
    (input_ids : Option Ids2) (attention_mask : Option Mask2)
    (token_type_ids position_ids : Option Ids2) (head_mask : Option H)
    (inputs_embeds : Option Tensor3) : Except ElectraError (Tensor3 × List A) :=
  if input_ids.isSome ∧ inputs_embeds.isSome then .error .bothSpecified
  else if input_ids.isNone ∧ inputs_embeds.isNone then .error .neitherSpecified
  else
    let input_shape : Nat × Nat :=
      match input_ids, inputs_embeds with
      | some ids, _ => (ids.length, (ids.getD 0 []).length)
      | none, some ve => (ve.length, (ve.getD 0 []).length)
      | none, none => (0, 0)
    let attention_mask := attention_mask.getD (onesMask input_shape.1 input_shape.2)
    let token_type_ids := token_type_ids.getD (zerosIds input_shape.1 input_shape.2)
    let extended_attention_mask := get_extended_attention_mask (some attention_mask) input_shape
    match get_head_mask model.config head_mask with
    | .error e => .error e
    | .ok hm =>
        let hidden_states :=
          model.embeddings.forward input_ids position_ids (some token_type_ids) inputs_embeds
        .ok (model.encoder (projectedHidden model hidden_states) extended_attention_mask hm)

/-! ### Heads and task models -/

/-- A TensorFlow tensor as shape metadata plus a flat data buffer; this is
the view `tf.squeeze` acts on. -/
structure TFTensor where
  shape : List Nat
  data : List ℚ
deriving DecidableEq

/-- `tf.squeeze` with no axis argument removes every dimension of size 1. -/
def tfSqueeze (t : TFTensor) : TFTensor :=
  ⟨t.shape.filter (fun n => n ≠ 1), t.data⟩

/-- Static shape of a rank-3 nested-list tensor. -/
def shape3 (t : Tensor3) : List Nat :=
  [t.length, (t.getD 0 []).length, lastDim3 t]

/-- Flatten a rank-3 nested-list tensor into a buffer. -/
def flatten3 (t : Tensor3) : List ℚ := (t.map List.flatten).flatten

/-- `TFElectraDiscriminatorPredictions`: `dense = Dense(hidden_size)`,
`dense_prediction = Dense(1)`. -/
structure TFElectraDiscriminatorPredictions where
  dense : DenseLayer
  dense_prediction : DenseLayer
  config : ElectraConfig

/-- `TFElectraDiscriminatorPredictions.__init__`. -/
def mkDiscriminatorPredictions (config : ElectraConfig)
    (w1 : Nat → Nat → ℚ) (b1 : Nat → ℚ) (w2 : Nat → Nat → ℚ) (b2 : Nat → ℚ) :
    TFElectraDiscriminatorPredictions :=
  ⟨⟨config.hidden_size, w1, b1⟩, ⟨1, w2, b2⟩, config⟩

/-- `TFElectraDiscriminatorPredictions.forward` (lines 67-72): dense to
hidden width, the configured activation (`ACT2FN[config.hidden_act]`,
where `act2fn` is the framework's opaque activation table), dense to one
scalar per token, then `tf.squeeze`.  The attention-mask argument is
accepted but unused. -/
def TFElectraDiscriminatorPredictions.forward
    (p : TFElectraDiscriminatorPredictions) (act2fn : String → ℚ → ℚ)
    (discriminator_hidden_states : Tensor3) (attention_mask : Option Mask2) :
    TFTensor :=
  let hidden_states := p.dense.apply3 discriminator_hidden_states
  let hidden_states :=
    hidden_states.map (fun m => m.map (fun v => v.map (act2fn p.config.hidden_act)))
  let logits := p.dense_prediction.apply3 hidden_states
  tfSqueeze ⟨shape3 logits, flatten3 logits⟩

/-- `TFElectraGeneratorPredictions`: layer norm with
`epsilon = config.layer_norm_eps` and `dense = Dense(config.embedding_size)`. -/
structure TFElectraGeneratorPredictions where
  layerNorm : LayerNorm
  dense : DenseLayer

/-- `TFElectraGeneratorPredictions.__init__`. -/
def mkGeneratorPredictions (config : ElectraConfig)
    (w : Nat → Nat → ℚ) (b : Nat → ℚ) (gamma beta : Nat → ℚ) (rsqrt : ℚ → ℚ) :
    TFElectraGeneratorPredictions :=
  ⟨⟨config.layer_norm_eps, gamma, beta, rsqrt⟩, ⟨config.embedding_size, w, b⟩⟩

/-- `TFElectraGeneratorPredictions.forward` (lines 82-87): dense to
embedding width, the fixed `ACT2FN["gelu"]` activation, then layer
normalization. -/
def TFElectraGeneratorPredictions.forward (p : TFElectraGeneratorPredictions)
    (act2fn : String → ℚ → ℚ) (generator_hidden_states : Tensor3) : Tensor3 :=
  let hidden_states := p.dense.apply3 generator_hidden_states
  let hidden_states :=
    hidden_states.map (fun m => m.map (fun v => v.map (act2fn "gelu")))
  hidden_states.map (fun m => m.map p.layerNorm.apply)

/-- Modelled from the spec: the tied output projection is
`TFBertEmbeddings._linear` of the sibling module `modeling_tf_bert`
(invoked via `self.generator_lm_head(..., mode="linear")`), which is not
under `src/`.  Per the spec (section 4.4) it "reuses the token-embedding
weight matrix (transposed) as a tied projection back to vocabulary
logits": `logits[b,t,tok] = sum_d input[b,t,d] * wordEmb[tok,d]`. -/
def linearLmHead (vocab_size : Nat) (word_embeddings : Nat → Nat → ℚ)
    (t : Tensor3) : Tensor3 :=
  t.map (fun m => m.map (fun v =>
    (List.range vocab_size).map (fun tok =>
      ((List.range v.length).map (fun d => v.getD d 0 * word_embeddings tok d)).sum)))

/-- Add a bias vector along the last axis of a rank-3 tensor. -/
def addBias3 (bias : Nat → ℚ) (t : Tensor3) : Tensor3 :=
  t.map (fun m => m.map (fun v =>
    (List.range v.length).map (fun i => v.getD i 0 + bias i)))

/-- `TFElectraForMaskedLM`: base model (the generator), generator head,
the tied word-embedding matrix, and the lazily built bias vector of
length `vocab_size` (`build`, lines 227-231). -/
structure TFElectraForMaskedLM (H A : Type) where
  vocab_size : Nat
  generator : TFElectraModel H A
  generator_predictions : TFElectraGeneratorPredictions
  generator_lm_head : Nat → Nat → ℚ
  generator_lm_head_bias : Nat → ℚ

/-- `TFElectraForMaskedLM.call` (lines 233-253): base model, generator
head, tied projection (`mode="linear"`), then the tuple
`(prediction_scores,) + generator_hidden_states[1:]`.  Note the bias
built in `build` is not referenced here. -/
def TFElectraForMaskedLM.call {H A : Type} (m : TFElectraForMaskedLM H A)
    (act2fn : String → ℚ → ℚ)
    (input_ids : Option Ids2) (attention_mask : Option Mask2)
    (token_type_ids position_ids : Option Ids2) (head_mask : Option H)
    (inputs_embeds : Option Tensor3) : Except ElectraError (Tensor3 × List A) :=
  match m.generator.callFields input_ids attention_mask token_type_ids
      position_ids head_mask inputs_embeds with
  | .error e => .error e
  | .ok generator_hidden_states =>
      let generator_sequence_output := generator_hidden_states.1
      let prediction_scores :=
        m.generator_predictions.forward act2fn generator_sequence_output
      let prediction_scores := linearLmHead m.vocab_size m.generator_lm_head prediction_scores
      .ok (prediction_scores, generator_hidden_states.2)

/-- The Masked-LM first output as the specification describes it: the
generator head's output through the tied projection, plus the lazily
built bias vector. -/
def specMaskedLMScores {H A : Type} (m : TFElectraForMaskedLM H A)
    (act2fn : String → ℚ → ℚ) (generator_sequence_output : Tensor3) : Tensor3 :=
  addBias3 m.generator_lm_head_bias
    (linearLmHead m.vocab_size m.generator_lm_head
      (m.generator_predictions.forward act2fn generator_sequence_output))

/-- `TFElectraForPreTraining`. -/
structure TFElectraForPreTraining (H A : Type) where
  discriminator : TFElectraModel H A
  discriminator_predictions : TFElectraDiscriminatorPredictions

/-- `TFElectraForPreTraining.call` (lines 266-285): base model,
discriminator head (which receives the raw attention-mask argument), then
`(logits,) + discriminator_hidden_states[1:]`. -/
def TFElectraForPreTraining.call {H A : Type} (m : TFElectraForPreTraining H A)
    (act2fn : String → ℚ → ℚ)
    (input_ids : Option Ids2) (attention_mask : Option Mask2)
    (token_type_ids position_ids : Option Ids2) (head_mask : Option H)
    (inputs_embeds : Option Tensor3) : Except ElectraError (TFTensor × List A) :=
  match m.discriminator.callFields input_ids attention_mask token_type_ids
      position_ids head_mask inputs_embeds with
  | .error e => .error e
  | .ok discriminator_hidden_states =>
      let discriminator_sequence_output := discriminator_hidden_states.1
      let logits := m.discriminator_predictions.forward act2fn
        discriminator_sequence_output attention_mask
      .ok (logits, discriminator_hidden_states.2)

/-- `TFElectraForTokenClassification`: base model, dropout (opaque
framework layer), `classifier = Dense(config.num_labels)`. -/
structure TFElectraForTokenClassification (H A : Type) where
  discriminator : TFElectraModel H A
  dropout : Tensor3 → Tensor3
  classifier : DenseLayer

/-- `TFElectraForTokenClassification.__init__`. -/
def mkTokenClassification {H A : Type} (config : ElectraConfig)
    (model : TFElectraModel H A) (dropout : Tensor3 → Tensor3)
    (w : Nat → Nat → ℚ) (b : Nat → ℚ) : TFElectraForTokenClassification H A :=
  ⟨model, dropout, ⟨config.num_labels, w, b⟩⟩

/-- `TFElectraForTokenClassification.call` (lines 299-318): base model,
dropout, classifier, then `(logits,) + discriminator_hidden_states[1:]`. -/
def TFElectraForTokenClassification.call {H A : Type}
    (m : TFElectraForTokenClassification H A)
    (input_ids : Option Ids2) (attention_mask : Option Mask2)
    (token_type_ids position_ids : Option Ids2) (head_mask : Option H)
    (inputs_embeds : Option Tensor3) : Except ElectraError (Tensor3 × List A) :=
  match m.discriminator.callFields input_ids attention_mask token_type_ids
      position_ids head_mask inputs_embeds with
  | .error e => .error e
  | .ok discriminator_hidden_states =>
      let discriminator_sequence_output := discriminator_hidden_states.1
      let logits := m.classifier.apply3 (m.dropout discriminator_sequence_output)
      .ok (logits, discriminator_hidden_states.2)

/-! ### Helper lemmas -/

theorem getD_mem {α : Type} {xs : List α} {i : Nat} (h : i < xs.length) (d : α) :
    xs.getD i d ∈ xs := by
  rw [List.getD_eq_getElem?_getD, List.getElem?_eq_getElem h]
  exact List.getElem_mem h

theorem getD_map_of_lt {α β : Type} (g : α → β) (xs : List α) {i : Nat}
    (h : i < xs.length) (d : β) (d' : α) :
    (xs.map g).getD i d = g (xs.getD i d') := by
  rw [List.getD_eq_getElem?_getD, List.getD_eq_getElem?_getD, List.getElem?_map,
    List.getElem?_eq_getElem h]
  simp

theorem length_denseApply (d : DenseLayer) (v : Vec) : (d.apply v).length = d.units := by
  simp [DenseLayer.apply]

theorem length_lnApply (ln : LayerNorm) (v : Vec) : (ln.apply v).length = v.length := by
  simp [LayerNorm.apply]

theorem hasShape3_mapInner {t : Tensor3} {b s d : Nat} (h : HasShape3 t b s d)
    (f : Vec → Vec) (d' : Nat) (hf : ∀ v, v.length = d → (f v).length = d') :
    HasShape3 (t.map (fun m => m.map f)) b s d' := by
  obtain ⟨hlen, hmem⟩ := h
  refine ⟨by simp [hlen], ?_⟩
  intro m hm
  rw [List.mem_map] at hm
  obtain ⟨m', hm', rfl⟩ := hm
  obtain ⟨hs, hv⟩ := hmem m' hm'
  refine ⟨by simp [hs], ?_⟩
  intro v hvm
  rw [List.mem_map] at hvm
  obtain ⟨v', hv', rfl⟩ := hvm
  exact hf v' (hv v' hv')

theorem lastDim3_of_hasShape3 {t : Tensor3} {b s d : Nat} (h : HasShape3 t b s d)
    (hb : 1 ≤ b) (hs : 1 ≤ s) : lastDim3 t = d := by
  obtain ⟨hlen, hmem⟩ := h
  cases t with
  | nil => simp at hlen; omega
  | cons m t' =>
    obtain ⟨hms, hv⟩ := hmem m (by simp)
    cases m with
    | nil => simp at hms; omega
    | cons v m' => simpa [lastDim3] using hv v (by simp)

theorem shape3_of_hasShape3 {t : Tensor3} {b s d : Nat} (h : HasShape3 t b s d)
    (hb : 1 ≤ b) (hs : 1 ≤ s) : shape3 t = [b, s, d] := by
  have hld := lastDim3_of_hasShape3 h hb hs
  obtain ⟨hlen, hmem⟩ := h
  cases t with
  | nil => simp at hlen; omega
  | cons m t' =>
    obtain ⟨hms, _⟩ := hmem m (by simp)
    simp [shape3, List.getD_cons_zero, List.getElem?_cons_zero, hlen, hms, hld]

theorem lookup_eq_none_of_keys {V : Type} (mu : List (String × Option V)) (k : String)
    (h : ∀ pr ∈ mu, pr.1 ≠ k) : mu.lookup k = none := by
  induction mu with
  | nil => rfl
  | cons hd tl ih =>
    have h1 : hd.1 ≠ k := h hd (by simp)
    have hbeq : (k == hd.1) = false := by
      simp only [beq_eq_false_iff_ne, ne_eq]
      exact fun he => h1 he.symm
    simp only [List.lookup, hbeq]
    exact ih (fun pr hpr => h pr (by simp [hpr]))

theorem getD_affine_map (row : List ℚ) {j : Nat} (hj : j < row.length) :
    (row.map (fun x => (1 - x) * (-10000))).getD j 0
      = (1 - row.getD j 0) * (-10000) := by
  rw [List.getD_eq_getElem?_getD, List.getElem?_map, List.getElem?_eq_getElem hj]
  rw [List.getD_eq_getElem?_getD, List.getElem?_eq_getElem hj]
  rfl

theorem entry4_extended_mask (m : Mask2) (shape : Nat × Nat) {i j : Nat}
    (hi : i < m.length) (hj : j < (m.getD i []).length) :
    entry4 (get_extended_attention_mask (some m) shape) i 0 0 j
      = (1 - entry2 m i j) * (-10000) := by
  have hrepr : get_extended_attention_mask (some m) shape
      = m.map (fun row => [[row.map (fun x => (1 - x) * (-10000))]]) := rfl
  have houter : (m.map (fun row => [[row.map (fun x => (1 - x) * (-10000))]])).getD i []
      = [[(m.getD i []).map (fun x => (1 - x) * (-10000))]] := by
    rw [List.getD_eq_getElem?_getD, List.getElem?_map, List.getElem?_eq_getElem hi]
    rw [List.getD_eq_getElem?_getD, List.getElem?_eq_getElem hi]
    rfl
  have hinner := getD_affine_map (m.getD i []) hj
  unfold entry4 entry2
  rw [hrepr, houter]
  simp only [List.getD_cons_zero]
  exact hinner

theorem extended_mask_shape (m : Mask2) (shape : Nat × Nat) {b s : Nat}
    (h : HasShape2 m b s) :
    HasShape4 (get_extended_attention_mask (some m) shape) b 1 1 s := by
  obtain ⟨hlen, hmem⟩ := h
  refine ⟨by simp [get_extended_attention_mask, hlen], ?_⟩
  intro x hx
  simp only [get_extended_attention_mask, List.mem_map] at hx
  obtain ⟨row, hrow, rfl⟩ := hx
  refine ⟨rfl, ?_⟩
  intro y hy
  simp only [List.mem_singleton] at hy
  subst hy
  refine ⟨rfl, ?_⟩
  intro z hz
  simp only [List.mem_singleton] at hz
  subst hz
  simp [hmem row hrow]

theorem extended_mask_ones (b s : Nat) (shape : Nat × Nat) :
    get_extended_attention_mask (some (onesMask b s)) shape
      = List.replicate b [[List.replicate s 0]] := by
  simp [get_extended_attention_mask, onesMask, List.map_replicate]

/-- Claim C2: for every binary attention mask of shape `[batch, seq]`,
the additive attention bias has shape `[batch, 1, 1, seq]`; positions
where the mask is 1 carry bias 0, positions where it is 0 carry -10000;
an all-ones mask yields the all-zero bias tensor. -/
theorem C2_extended_attention_mask (b s : Nat) (m : Mask2)
    (hshape : HasShape2 m b s) (hbin : IsBinaryMask m) :
    HasShape4 (get_extended_attention_mask (some m) (b, s)) b 1 1 s
    ∧ (∀ i < b, ∀ j < s,
        (entry2 m i j = 1 →
          entry4 (get_extended_attention_mask (some m) (b, s)) i 0 0 j = 0)
        ∧ (entry2 m i j = 0 →
          entry4 (get_extended_attention_mask (some m) (b, s)) i 0 0 j = -10000))
    ∧ (m = onesMask b s →
        get_extended_attention_mask (some m) (b, s)
          = List.replicate b [[List.replicate s 0]]) := by
  obtain ⟨hlen, hmem⟩ := hshape
  refine ⟨extended_mask_shape m (b, s) ⟨hlen, hmem⟩, ?_, ?_⟩
  · intro i hi j hj
    have hi' : i < m.length := by omega
    have hj' : j < (m.getD i []).length := by
      rw [hmem _ (getD_mem hi' [])]; omega
    have he := entry4_extended_mask m (b, s) hi' hj'
    constructor
    · intro h1; rw [he, h1]; norm_num
    · intro h0; rw [he, h0]; norm_num
  · intro hones
    rw [hones]
    exact extended_mask_ones b s (b, s)

/-- Claim C2 witness at a concrete binary mask. -/
theorem C2_extended_attention_mask_witness :
    (HasShape2 ([[1, 0]] : Mask2) 1 2 ∧ IsBinaryMask [[1, 0]])
    ∧ (HasShape4 (get_extended_attention_mask (some [[1, 0]]) (1, 2)) 1 1 1 2
      ∧ (∀ i < 1, ∀ j < 2,
          (entry2 [[1, 0]] i j = 1 →
            entry4 (get_extended_attention_mask (some [[1, 0]]) (1, 2)) i 0 0 j = 0)
          ∧ (entry2 [[1, 0]] i j = 0 →
            entry4 (get_extended_attention_mask (some [[1, 0]]) (1, 2)) i 0 0 j = -10000))
      ∧ (([[1, 0]] : Mask2) = onesMask 1 2 →
          get_extended_attention_mask (some [[1, 0]]) (1, 2)
            = List.replicate 1 [[List.replicate 2 0]])) :=
  ⟨⟨by decide, by decide⟩, C2_extended_attention_mask 1 2 [[1, 0]] (by decide) (by decide)⟩

/-- Claim C6: a supplied head mask raises the "not implemented" error
(also through a full Base-Model call), and an absent head mask expands to
exactly one no-op entry per configured encoder layer. -/
theorem C6_head_mask {H A : Type} (config : ElectraConfig)
    (model : TFElectraModel H A) (ids : Ids2) (am : Option Mask2)
    (tts pids : Option Ids2) :
    (∀ hm : H, get_head_mask config (some hm) = .error .notImplemented)
    ∧ get_head_mask config none
        = .ok (List.replicate config.num_hidden_layers (none : Option H))
    ∧ (∀ hm : H, model.callFields (some ids) am tts pids (some hm) none
        = .error .notImplemented) := by
  refine ⟨fun hm => rfl, rfl, fun hm => ?_⟩
  simp [TFElectraModel.callFields, get_head_mask]

/-- Claim C1: supplying both token ids and precomputed embeddings raises
the "specify only one" error, supplying neither raises "must specify
one", and a call with exactly one of the two raises neither of these two
errors. -/
theorem C1_specify_exactly_one {H A : Type} (model : TFElectraModel H A)
    (am : Option Mask2) (tts pids : Option Ids2) (hm : Option H) :
    (∀ (ids : Ids2) (ve : Tensor3),
        model.callFields (some ids) am tts pids hm (some ve) = .error .bothSpecified)
    ∧ model.callFields none am tts pids hm none = .error .neitherSpecified
    ∧ (∀ ids : Ids2,
        model.callFields (some ids) am tts pids hm none ≠ .error .bothSpecified
        ∧ model.callFields (some ids) am tts pids hm none ≠ .error .neitherSpecified)
    ∧ (∀ ve : Tensor3,
        model.callFields none am tts pids hm (some ve) ≠ .error .bothSpecified
        ∧ model.callFields none am tts pids hm (some ve) ≠ .error .neitherSpecified) := by
  refine ⟨fun ids ve => by simp [TFElectraModel.callFields],
    by simp [TFElectraModel.callFields], fun ids => ?_, fun ve => ?_⟩
  · cases hm with
    | none => constructor <;> simp [TFElectraModel.callFields, get_head_mask]
    | some h => constructor <;> simp [TFElectraModel.callFields, get_head_mask]
  · cases hm with
    | none => constructor <;> simp [TFElectraModel.callFields, get_head_mask]
    | some h => constructor <;> simp [TFElectraModel.callFields, get_head_mask]

/-- Claim C7: a positional sequence or a mapping with more than six
entries raises the "too many inputs" error. -/
theorem C7_too_many_inputs {V R : Type}
    (process : CanonFields V → Except ElectraError R) (kw : CallKwargs V)
    (xs : List (Option V)) (m : List (String × Option V)) :
    (6 < xs.length →
      TFElectraModelCallGeneric process (.positionalSeq xs) kw = .error .tooManyInputs)
    ∧ (6 < m.length →
      TFElectraModelCallGeneric process (.mapping m) kw = .error .tooManyInputs) := by
  constructor
  · intro h
    cases xs with
    | nil => simp at h
    | cons x xs' =>
      have hle : ¬ xs'.length ≤ 5 := by
        simp only [List.length_cons] at h; omega
      simp [TFElectraModelCallGeneric, normalizeInputs, hle]
  · intro h
    have hle : ¬ m.length ≤ 6 := by omega
    simp [TFElectraModelCallGeneric, normalizeInputs, hle]

/-- Claim C7 witness: seven-element positional and mapping inputs. -/
theorem C7_too_many_inputs_witness :
    TFElectraModelCallGeneric (fun _ => .ok (0 : Nat))
      (.positionalSeq (List.replicate 7 (none : Option Unit))) {}
      = .error .tooManyInputs
    ∧ TFElectraModelCallGeneric (fun _ => .ok (0 : Nat))
      (.mapping (List.replicate 7 ("x", (none : Option Unit)))) {}
      = .error .tooManyInputs :=
  ⟨(C7_too_many_inputs _ _ _ (List.replicate 7 ("x", none))).1 (by decide),
   (C7_too_many_inputs (fun _ => .ok (0 : Nat)) {} (List.replicate 7 none) _).2 (by decide)⟩

/-- Claim C10: a mapping input is read only at the six canonical keys —
two mappings with at most six entries that agree on those keys produce
identical results for any continuation — and a mapping of unrecognized
keys (with default keyword arguments) passes the too-many-inputs check
and then fails with the "must specify one" error. -/
theorem C10_mapping_reads_only_canonical_keys {V R : Type}
    (process : CanonFields V → Except ElectraError R) (kw : CallKwargs V)
    (m1 m2 mu : List (String × Option V)) :
    (m1.length ≤ 6 → m2.length ≤ 6 →
      (∀ k ∈ canonicalKeys, m1.lookup k = m2.lookup k) →
      TFElectraModelCallGeneric process (.mapping m1) kw
        = TFElectraModelCallGeneric process (.mapping m2) kw)
    ∧ (mu.length ≤ 6 → (∀ pr ∈ mu, pr.1 ∉ canonicalKeys) →
      TFElectraModelCallGeneric process (.mapping mu) {}
        = .error .neitherSpecified) := by
  constructor
  · intro h1 h2 hk
    have e1 := hk "input_ids" (by simp [canonicalKeys])
    have e2 := hk "attention_mask" (by simp [canonicalKeys])
    have e3 := hk "token_type_ids" (by simp [canonicalKeys])
    have e4 := hk "position_ids" (by simp [canonicalKeys])
    have e5 := hk "head_mask" (by simp [canonicalKeys])
    have e6 := hk "inputs_embeds" (by simp [canonicalKeys])
    have hnorm : normalizeInputs (ModelInput.mapping m1) kw
        = normalizeInputs (ModelInput.mapping m2) kw := by
      simp [normalizeInputs, h1, h2, dictGet, e1, e2, e3, e4, e5, e6]
    simp [TFElectraModelCallGeneric, hnorm]
  · intro hlen hkeys
    have l1 : mu.lookup "input_ids" = none :=
      lookup_eq_none_of_keys mu _ (fun pr hpr heq =>
        hkeys pr hpr (by rw [heq]; simp [canonicalKeys]))
    have l6 : mu.lookup "inputs_embeds" = none :=
      lookup_eq_none_of_keys mu _ (fun pr hpr heq =>
        hkeys pr hpr (by rw [heq]; simp [canonicalKeys]))
    simp [TFElectraModelCallGeneric, normalizeInputs, hlen, dictGet, l1, l6,
      checkSpecified]

/-- Claim C10 witness: two single-entry mappings with distinct
unrecognized keys give the same result, and an unrecognized-key mapping
fails with "must specify one". -/
theorem C10_mapping_reads_only_canonical_keys_witness :
    (TFElectraModelCallGeneric (fun f => .ok f.input_ids)
        (.mapping [("foo", some (1 : Nat))]) {}
      = TFElectraModelCallGeneric (fun f => .ok f.input_ids)
        (.mapping [("bar", some (2 : Nat))]) {})
    ∧ TFElectraModelCallGeneric (fun f => .ok f.input_ids)
        (.mapping [("baz", some (3 : Nat))]) {}
      = .error .neitherSpecified :=
  ⟨(C10_mapping_reads_only_canonical_keys (fun f => .ok f.input_ids) {}
      [("foo", some 1)] [("bar", some 2)] []).1
      (by decide) (by decide) (by decide),
   (C10_mapping_reads_only_canonical_keys (fun f => .ok f.input_ids) {}
      [] [] [("baz", some 3)]).2 (by decide) (by decide)⟩

/-- Claim C9: each of the three task models returns a tuple whose first
element is the task output computed from the Base Model's sequence
output, and whose remaining elements are the Base Model's auxiliary
outputs unchanged (errors propagate unchanged as well). -/
theorem C9_task_models_pass_aux {H A : Type}
    (mlm : TFElectraForMaskedLM H A) (pre : TFElectraForPreTraining H A)
    (tok : TFElectraForTokenClassification H A) (act2fn : String → ℚ → ℚ)
    (input_ids : Option Ids2) (attention_mask : Option Mask2)
    (token_type_ids position_ids : Option Ids2) (head_mask : Option H)
    (inputs_embeds : Option Tensor3) :
    mlm.call act2fn input_ids attention_mask token_type_ids position_ids
        head_mask inputs_embeds
      = (mlm.generator.callFields input_ids attention_mask token_type_ids
          position_ids head_mask inputs_embeds).map
          (fun out => (linearLmHead mlm.vocab_size mlm.generator_lm_head
            (mlm.generator_predictions.forward act2fn out.1), out.2))
    ∧ pre.call act2fn input_ids attention_mask token_type_ids position_ids
        head_mask inputs_embeds
      = (pre.discriminator.callFields input_ids attention_mask token_type_ids
          position_ids head_mask inputs_embeds).map
          (fun out => (pre.discriminator_predictions.forward act2fn out.1
            attention_mask, out.2))
    ∧ tok.call input_ids attention_mask token_type_ids position_ids
        head_mask inputs_embeds
      = (tok.discriminator.callFields input_ids attention_mask token_type_ids
          position_ids head_mask inputs_embeds).map
          (fun out => (tok.classifier.apply3 (tok.dropout out.1), out.2)) := by
  refine ⟨?_, ?_, ?_⟩
  · cases h : mlm.generator.callFields input_ids attention_mask token_type_ids
        position_ids head_mask inputs_embeds <;>
      simp [TFElectraForMaskedLM.call, h, Except.map]
  · cases h : pre.discriminator.callFields input_ids attention_mask token_type_ids
        position_ids head_mask inputs_embeds <;>
      simp [TFElectraForPreTraining.call, h, Except.map]
  · cases h : tok.discriminator.callFields input_ids attention_mask token_type_ids
        position_ids head_mask inputs_embeds <;>
      simp [TFElectraForTokenClassification.call, h, Except.map]

/-- Claim C8: the Generator Head applies dense-to-embedding-width, the
fixed gelu activation, then layer normalization; its output feature
width always equals the configured embedding width, and the result is
unchanged by the configured hidden width or configured activation (only
the `"gelu"` entry of the activation table matters). -/
theorem C8_generator_head (config : ElectraConfig)
    (w : Nat → Nat → ℚ) (bs : Nat → ℚ) (gamma beta : Nat → ℚ) (rsqrt : ℚ → ℚ)
    (act2fn act2fn' : String → ℚ → ℚ) (t : Tensor3) (b s d n : Nat) (a : String)
    (hshape : HasShape3 t b s d) (hg : act2fn "gelu" = act2fn' "gelu") :
    HasShape3 ((mkGeneratorPredictions config w bs gamma beta rsqrt).forward act2fn t)
      b s config.embedding_size
    ∧ (mkGeneratorPredictions config w bs gamma beta rsqrt).forward act2fn t
      = (mkGeneratorPredictions
          { config with hidden_size := n, hidden_act := a } w bs gamma beta
          rsqrt).forward act2fn' t := by
  constructor
  · have h1 : HasShape3 (DenseLayer.apply3 ⟨config.embedding_size, w, bs⟩ t)
        b s config.embedding_size :=
      hasShape3_mapInner hshape _ _ (fun v _ => length_denseApply _ v)
    have h2 := hasShape3_mapInner h1 (fun v => v.map (act2fn "gelu"))
      config.embedding_size (fun v hv => by simp [hv])
    have h3 := hasShape3_mapInner h2
      (LayerNorm.apply ⟨config.layer_norm_eps, gamma, beta, rsqrt⟩)
      config.embedding_size (fun v hv => by rw [length_lnApply]; exact hv)
    exact h3
  · simp [TFElectraGeneratorPredictions.forward, mkGeneratorPredictions,
      DenseLayer.apply3, hg]

/-- Claim C8 witness at a concrete input. -/
theorem C8_generator_head_witness :
    (HasShape3 [[[0]]] 1 1 1 ∧
      (fun (_ : String) (x : ℚ) => x) "gelu" = (fun (_ : String) (x : ℚ) => x + 0) "gelu")
    ∧ (HasShape3
        ((mkGeneratorPredictions ⟨1, 1, 1, 1, 1, "gelu", 1, 1, 0, 0⟩
          (fun _ _ => 0) (fun _ => 0) (fun _ => 1) (fun _ => 0)
          (fun _ => 1)).forward (fun _ x => x) [[[0]]]) 1 1
        (⟨1, 1, 1, 1, 1, "gelu", 1, 1, 0, 0⟩ : ElectraConfig).embedding_size
      ∧ (mkGeneratorPredictions ⟨1, 1, 1, 1, 1, "gelu", 1, 1, 0, 0⟩
          (fun _ _ => 0) (fun _ => 0) (fun _ => 1) (fun _ => 0)
          (fun _ => 1)).forward (fun _ x => x) [[[0]]]
        = (mkGeneratorPredictions
            { (⟨1, 1, 1, 1, 1, "gelu", 1, 1, 0, 0⟩ : ElectraConfig) with
              hidden_size := 7, hidden_act := "relu" }
            (fun _ _ => 0) (fun _ => 0) (fun _ => 1) (fun _ => 0)
            (fun _ => 1)).forward (fun _ x => x + 0) [[[0]]]) :=
  ⟨⟨by decide, by funext x; ring⟩,
   C8_generator_head ⟨1, 1, 1, 1, 1, "gelu", 1, 1, 0, 0⟩
     (fun _ _ => 0) (fun _ => 0) (fun _ => 1) (fun _ => 0) (fun _ => 1)
     (fun _ x => x) (fun _ x => x + 0) [[[0]]] 1 1 1 7 "relu"
     (by decide) (by funext x; ring)⟩

/-- Claim C4 counterexample: with batch = 1 (and seq = 2), `tf.squeeze`
(no axis) removes the singleton batch dimension as well, so the
discriminator head's logits have shape `[2]`, not the claimed
`[batch, seq] = [1, 2]`. -/
theorem C4_squeeze_counterexample :
    HasShape3 [[[0], [0]]] 1 2
      (⟨1, 1, 1, 1, 1, "gelu", 1, 1, 0, 0⟩ : ElectraConfig).hidden_size
    ∧ ((mkDiscriminatorPredictions ⟨1, 1, 1, 1, 1, "gelu", 1, 1, 0, 0⟩
        (fun _ _ => 0) (fun _ => 0) (fun _ _ => 0) (fun _ => 0)).forward
        (fun _ x => x) [[[0], [0]]] none).shape = [2]
    ∧ ([2] : List Nat) ≠ [1, 2] := by
  refine ⟨by decide, ?_, by decide⟩
  decide

/-- Claim C4 (amended): the Discriminator Head applies dense-to-hidden,
the configured activation, dense-to-one-scalar, and then `tf.squeeze`,
which removes every singleton dimension (the trailing one and any
singleton batch or sequence dimension); for batch ≥ 2 and seq ≥ 2 the
logits' shape is exactly `[batch, seq]`. -/
theorem C4_discriminator_shape (config : ElectraConfig)
    (w1 : Nat → Nat → ℚ) (b1 : Nat → ℚ) (w2 : Nat → Nat → ℚ) (b2 : Nat → ℚ)
    (act2fn : String → ℚ → ℚ) (am : Option Mask2) (t : Tensor3) (b s : Nat)
    (hb : 2 ≤ b) (hs : 2 ≤ s) (hshape : HasShape3 t b s config.hidden_size) :
    ((mkDiscriminatorPredictions config w1 b1 w2 b2).forward act2fn t am).shape
      = [b, s] := by
  have h1 : HasShape3 (DenseLayer.apply3 ⟨config.hidden_size, w1, b1⟩ t)
      b s config.hidden_size :=
    hasShape3_mapInner hshape _ _ (fun v _ => length_denseApply _ v)
  have h2 := hasShape3_mapInner h1
    (fun v => v.map (act2fn config.hidden_act)) config.hidden_size
    (fun v hv => by simp [hv])
  have h3 : HasShape3 (DenseLayer.apply3 ⟨1, w2, b2⟩
      ((DenseLayer.apply3 ⟨config.hidden_size, w1, b1⟩ t).map
        (fun m => m.map (fun v => v.map (act2fn config.hidden_act))))) b s 1 :=
    hasShape3_mapInner h2 _ _ (fun v _ => length_denseApply _ v)
  have hsh := shape3_of_hasShape3 h3 (by omega) (by omega)
  have hb1 : b ≠ 1 := by omega
  have hs1 : s ≠ 1 := by omega
  show (tfSqueeze ⟨shape3 (DenseLayer.apply3 ⟨1, w2, b2⟩
      ((DenseLayer.apply3 ⟨config.hidden_size, w1, b1⟩ t).map
        (fun m => m.map (fun v => v.map (act2fn config.hidden_act))))),
      flatten3 (DenseLayer.apply3 ⟨1, w2, b2⟩
      ((DenseLayer.apply3 ⟨config.hidden_size, w1, b1⟩ t).map
        (fun m => m.map (fun v => v.map (act2fn config.hidden_act)))))⟩).shape
    = [b, s]
  simp only [tfSqueeze]
  rw [hsh]
  simp [List.filter_cons, hb1, hs1]

/-- Claim C4 witness (amended claim) at batch = seq = 2. -/
theorem C4_discriminator_shape_witness :
    (HasShape3 [[[0], [0]], [[0], [0]]] 2 2
      (⟨1, 1, 1, 1, 1, "gelu", 1, 1, 0, 0⟩ : ElectraConfig).hidden_size)
    ∧ ((mkDiscriminatorPredictions ⟨1, 1, 1, 1, 1, "gelu", 1, 1, 0, 0⟩
        (fun _ _ => 0) (fun _ => 0) (fun _ _ => 0) (fun _ => 0)).forward
        (fun _ x => x) [[[0], [0]], [[0], [0]]] none).shape = [2, 2] :=
  ⟨by decide,
   C4_discriminator_shape ⟨1, 1, 1, 1, 1, "gelu", 1, 1, 0, 0⟩
     (fun _ _ => 0) (fun _ => 0) (fun _ _ => 0) (fun _ => 0)
     (fun _ x => x) none [[[0], [0]], [[0], [0]]] 2 2
     (by decide) (by decide) (by decide)⟩

theorem embeddings_forward_ids_shape (e : TFElectraEmbeddings) (ids : Ids2)
    (pids tts : Option Ids2) {b s : Nat} (h : HasShape2 ids b s) :
    HasShape3 (e.forward (some ids) pids tts none) b s e.embedding_size := by
  obtain ⟨hlen, hmem⟩ := h
  refine ⟨by simp [TFElectraEmbeddings.forward, hlen], ?_⟩
  intro m hm
  simp only [TFElectraEmbeddings.forward, List.mem_map, List.mem_range] at hm
  obtain ⟨bi, hbi, rfl⟩ := hm
  have hrow : (ids.getD bi []).length = s := hmem _ (getD_mem hbi [])
  have hrow' : (ids[bi]?.getD []).length = s := by
    rw [← List.getD_eq_getElem?_getD]; exact hrow
  refine ⟨by simp [hrow'], ?_⟩
  intro v hv
  simp only [List.mem_map, List.mem_range] at hv
  obtain ⟨ti, hti, rfl⟩ := hv
  simp [length_lnApply]

theorem projectedHidden_shape {H A : Type} (model : TFElectraModel H A)
    {h : Tensor3} {b s : Nat} (hb : 1 ≤ b) (hs : 1 ≤ s)
    (hunits : model.embeddings_project.units = model.config.hidden_size)
    (hshape : HasShape3 h b s model.embeddings.embedding_size) :
    HasShape3 (projectedHidden model h) b s model.config.hidden_size := by
  unfold projectedHidden
  by_cases hc : lastDim3 h ≠ model.config.hidden_size
  · rw [if_pos hc]
    have hm := hasShape3_mapInner hshape model.embeddings_project.apply
      model.embeddings_project.units (fun v _ => length_denseApply _ v)
    rw [hunits] at hm
    exact hm
  · rw [if_neg hc]
    push_neg at hc
    have hld := lastDim3_of_hasShape3 hshape hb hs
    have heq : model.embeddings.embedding_size = model.config.hidden_size := by
      rw [← hld, hc]
    exact heq ▸ hshape

/-- Claim C3: for a valid token-id input of shape `[batch, seq]` (with a
shape-preserving encoder, as the spec describes the external encoder),
the Base Model returns successfully with a sequence output of shape
`[batch, seq, hidden_size]`; the embedding output's feature width is the
configured embedding width; and the re-projection is applied exactly
when that feature width differs from the configured hidden width. -/
theorem C3_base_model_output_shape {H A : Type} (config : ElectraConfig)
    (w p s' : Nat → Nat → ℚ) (ln : LayerNorm) (projW : Nat → Nat → ℚ)
    (projB : Nat → ℚ)
    (encoder : Tensor3 → Tensor4 → List (Option H) → Tensor3 × List A)
    (hEnc : ∀ t e hm b s d, HasShape3 t b s d → HasShape3 (encoder t e hm).1 b s d)
    (b s : Nat) (hb : 1 ≤ b) (hs : 1 ≤ s) (ids : Ids2) (hids : HasShape2 ids b s)
    (am : Option Mask2) (tts pids : Option Ids2) :
    (∃ out, (mkElectraModel config w p s' ln projW projB encoder).callFields
        (some ids) am tts pids none none = .ok out
      ∧ HasShape3 out.1 b s config.hidden_size)
    ∧ (∀ pids' tts' : Option Ids2, lastDim3
        ((mkElectraEmbeddings config w p s' ln).forward (some ids) pids' tts' none)
        = config.embedding_size)
    ∧ (∀ h : Tensor3,
        (lastDim3 h = config.hidden_size →
          projectedHidden (mkElectraModel config w p s' ln projW projB encoder) h
            = h)
        ∧ (lastDim3 h ≠ config.hidden_size →
          projectedHidden (mkElectraModel config w p s' ln projW projB encoder) h
            = DenseLayer.apply3 ⟨config.hidden_size, projW, projB⟩ h)) := by
  have hcall : (mkElectraModel config w p s' ln projW projB encoder).callFields
      (some ids) am tts pids none none
    = .ok (encoder
        (projectedHidden (mkElectraModel config w p s' ln projW projB encoder)
          ((mkElectraEmbeddings config w p s' ln).forward (some ids) pids
            (some (tts.getD (zerosIds ids.length (ids.getD 0 []).length))) none))
        (get_extended_attention_mask
          (some (am.getD (onesMask ids.length (ids.getD 0 []).length)))
          (ids.length, (ids.getD 0 []).length))
        (List.replicate config.num_hidden_layers none)) := by
    simp [TFElectraModel.callFields, get_head_mask, mkElectraModel, mkElectraEmbeddings]
  have hembShape : HasShape3 ((mkElectraEmbeddings config w p s' ln).forward
      (some ids) pids
      (some (tts.getD (zerosIds ids.length (ids.getD 0 []).length))) none)
      b s config.embedding_size :=
    embeddings_forward_ids_shape (mkElectraEmbeddings config w p s' ln) ids _ _ hids
  have hproj := projectedHidden_shape
    (mkElectraModel config w p s' ln projW projB encoder) hb hs rfl hembShape
  refine ⟨⟨_, hcall, hEnc _ _ _ b s config.hidden_size hproj⟩, ?_, ?_⟩
  · intro pids' tts'
    exact lastDim3_of_hasShape3
      (embeddings_forward_ids_shape (mkElectraEmbeddings config w p s' ln)
        ids pids' tts' hids) hb hs
  · intro h
    constructor
    · intro hld
      show (if lastDim3 h ≠ config.hidden_size then
          DenseLayer.apply3 ⟨config.hidden_size, projW, projB⟩ h else h) = h
      rw [if_neg (not_not_intro hld)]
    · intro hld
      show (if lastDim3 h ≠ config.hidden_size then
          DenseLayer.apply3 ⟨config.hidden_size, projW, projB⟩ h else h)
        = DenseLayer.apply3 ⟨config.hidden_size, projW, projB⟩ h
      rw [if_pos hld]

/-- Claim C3 witness: one-token input, identity encoder. -/
theorem C3_base_model_output_shape_witness :
    ((∀ (t : Tensor3) (e : Tensor4) (hm : List (Option Unit)) (b s d : Nat),
        HasShape3 t b s d →
        HasShape3 ((fun (t : Tensor3) (_ : Tensor4) (_ : List (Option Unit)) =>
          (t, ([] : List Unit))) t e hm).1 b s d)
      ∧ (1 : Nat) ≤ 1 ∧ HasShape2 ([[0]] : Ids2) 1 1)
    ∧ ((∃ out, (mkElectraModel ⟨1, 1, 1, 1, 1, "gelu", 1, 1, 0, 0⟩
          (fun _ _ => 0) (fun _ _ => 0) (fun _ _ => 0)
          ⟨0, fun _ => 1, fun _ => 0, fun _ => 1⟩ (fun _ _ => 0) (fun _ => 0)
          (fun (t : Tensor3) (_ : Tensor4) (_ : List (Option Unit)) =>
            (t, ([] : List Unit)))).callFields
          (some [[0]]) none none none none none = .ok out
        ∧ HasShape3 out.1 1 1
            (⟨1, 1, 1, 1, 1, "gelu", 1, 1, 0, 0⟩ : ElectraConfig).hidden_size)
      ∧ (∀ pids' tts' : Option Ids2, lastDim3
          ((mkElectraEmbeddings ⟨1, 1, 1, 1, 1, "gelu", 1, 1, 0, 0⟩
            (fun _ _ => 0) (fun _ _ => 0) (fun _ _ => 0)
            ⟨0, fun _ => 1, fun _ => 0, fun _ => 1⟩).forward
            (some [[0]]) pids' tts' none)
          = (⟨1, 1, 1, 1, 1, "gelu", 1, 1, 0, 0⟩ : ElectraConfig).embedding_size)
      ∧ (∀ h : Tensor3,
          (lastDim3 h = (⟨1, 1, 1, 1, 1, "gelu", 1, 1, 0, 0⟩ : ElectraConfig).hidden_size →
            projectedHidden (mkElectraModel ⟨1, 1, 1, 1, 1, "gelu", 1, 1, 0, 0⟩
              (fun _ _ => 0) (fun _ _ => 0) (fun _ _ => 0)
              ⟨0, fun _ => 1, fun _ => 0, fun _ => 1⟩ (fun _ _ => 0) (fun _ => 0)
              (fun (t : Tensor3) (_ : Tensor4) (_ : List (Option Unit)) =>
                (t, ([] : List Unit)))) h = h)
          ∧ (lastDim3 h ≠ (⟨1, 1, 1, 1, 1, "gelu", 1, 1, 0, 0⟩ : ElectraConfig).hidden_size →
            projectedHidden (mkElectraModel ⟨1, 1, 1, 1, 1, "gelu", 1, 1, 0, 0⟩
              (fun _ _ => 0) (fun _ _ => 0) (fun _ _ => 0)
              ⟨0, fun _ => 1, fun _ => 0, fun _ => 1⟩ (fun _ _ => 0) (fun _ => 0)
              (fun (t : Tensor3) (_ : Tensor4) (_ : List (Option Unit)) =>
                (t, ([] : List Unit)))) h
              = DenseLayer.apply3
                ⟨(⟨1, 1, 1, 1, 1, "gelu", 1, 1, 0, 0⟩ : ElectraConfig).hidden_size,
                 fun _ _ => 0, fun _ => 0⟩ h))) :=
  ⟨⟨fun _ _ _ _ _ _ h => h, by decide, by decide⟩,
   C3_base_model_output_shape ⟨1, 1, 1, 1, 1, "gelu", 1, 1, 0, 0⟩
     (fun _ _ => 0) (fun _ _ => 0) (fun _ _ => 0)
     ⟨0, fun _ => 1, fun _ => 0, fun _ => 1⟩ (fun _ _ => 0) (fun _ => 0)
     (fun t _ _ => (t, []))
     (fun _ _ _ _ _ _ h => h) 1 1 (by decide) (by decide) [[0]] (by decide)
     none none none⟩

/-- A concrete one-dimensional Masked-LM instance: identity encoder, zero
weights, unit `rsqrt`, and `generator_lm_head_bias` constantly 1. -/
def mlmProbe : TFElectraForMaskedLM Unit Unit :=
  ⟨1,
   mkElectraModel ⟨1, 1, 1, 1, 1, "gelu", 1, 1, 0, 0⟩ (fun _ _ => 0) (fun _ _ => 0)
     (fun _ _ => 0) ⟨0, fun _ => 1, fun _ => 0, fun _ => 1⟩ (fun _ _ => 0)
     (fun _ => 0) (fun t _ _ => (t, [])),
   mkGeneratorPredictions ⟨1, 1, 1, 1, 1, "gelu", 1, 1, 0, 0⟩ (fun _ _ => 0)
     (fun _ => 0) (fun _ => 1) (fun _ => 0) (fun _ => 1),
   fun _ _ => 0,
   fun _ => 1⟩

/-- Claim C5 (code bug): the Masked-LM model's first output is the tied
projection of the generator head's output WITHOUT the lazily built
`generator_lm_head_bias` — `build` creates the bias but `call` never
adds it.  At a concrete instance whose base-model sequence output is
`[[[0]]]` and whose bias is constantly 1, the code returns logits
`[[[0]]]` while the claimed value (projection plus bias) is `[[[1]]]`. -/
theorem C5_bias_not_added :
    mlmProbe.generator.callFields (some [[0]]) none none none none none
      = .ok ([[[0]]], [])
    ∧ TFElectraForMaskedLM.call mlmProbe (fun _ x => x) (some [[0]]) none none
        none none none = .ok ([[[0]]], [])
    ∧ specMaskedLMScores mlmProbe (fun _ x => x) [[[0]]] = [[[1]]]
    ∧ TFElectraForMaskedLM.call mlmProbe (fun _ x => x) (some [[0]]) none none
        none none none
      ≠ .ok (specMaskedLMScores mlmProbe (fun _ x => x) [[[0]]], []) := by
  have h1 : mlmProbe.generator.callFields (some [[0]]) none none none none none
      = .ok ([[[0]]], []) := by
    norm_num [TFElectraModel.callFields, get_head_mask,
      get_extended_attention_mask, TFElectraEmbeddings.forward, mkElectraModel,
      mkElectraEmbeddings, projectedHidden, lastDim3, DenseLayer.apply3,
      DenseLayer.apply, LayerNorm.apply, listMean, onesMask, zerosIds, mlmProbe,
      List.range_succ]
  have h2 : TFElectraForMaskedLM.call mlmProbe (fun _ x => x) (some [[0]]) none
      none none none none = .ok ([[[0]]], []) := by
    norm_num [TFElectraForMaskedLM.call, TFElectraModel.callFields,
      get_head_mask, get_extended_attention_mask, TFElectraEmbeddings.forward,
      mkElectraModel, mkElectraEmbeddings, projectedHidden, lastDim3,
      DenseLayer.apply3, DenseLayer.apply, LayerNorm.apply, listMean,
      linearLmHead, mkGeneratorPredictions,
      TFElectraGeneratorPredictions.forward, onesMask, zerosIds, mlmProbe,
      List.range_succ]
  have h3 : specMaskedLMScores mlmProbe (fun _ x => x) [[[0]]] = [[[1]]] := by
    norm_num [specMaskedLMScores, addBias3, linearLmHead,
      TFElectraGeneratorPredictions.forward, mkGeneratorPredictions,
      DenseLayer.apply3, DenseLayer.apply, LayerNorm.apply, listMean, mlmProbe,
      List.range_succ]
  refine ⟨h1, h2, h3, ?_⟩
  rw [h2, h3]
  simp
